import Mathlib

/-!
Shallow embedding of the transform algebra of menpo/transform/base.py.

Arrays of point coordinates are modelled abstractly by a type parameter.
Stateful Python methods are translated by explicit state passing: a method
that mutates self is a function from the old self-value to the new one, and
a method that can raise returns the (unchanged) receiver paired with an
optional error, or an Except value.  Abstract methods and abstract
properties of the Python classes become fields of a class record; concrete
instances of the hierarchy are values of those records.
-/

set_option autoImplicit false

universe u v

/-- Python exceptions raised by the embedded code. -/
inductive PyError where
  | valueError (msg : String)
  | notImplementedError (msg : String)
  | attributeError (msg : String)
  deriving Repr, DecidableEq

/-- The message format of the capability-mismatch ValueError of
ComposableTransform.compose_before_inplace and compose_after_inplace
(types are not rendered in the model). -/
def composeInplaceMismatchMsg : String :=
  "can only compose inplace with the types in composes_inplace_with"

/-- A Transform is characterised by its abstract primitive mapping lowbar-apply
from coordinate arrays to coordinate arrays (base.py line 41). -/
structure Transform (α : Type u) where
  _apply : α → α

/-- A Transformable object: it carries some state and a hook that applies an
array-to-array function to that state in place
(Transformable.lowbar-transform-inplace, base.py line 833). -/
structure Transformable (β : Type v) (α : Type u) where
  state : β
  hook : (α → α) → β → β

/-- Transformable.lowbar-transform (base.py line 849): deep-copy self, run the
in-place hook on the copy, return the copy.  In the pure embedding the deep
copy is the value copy. -/
def Transformable._transform {β : Type v} {α : Type u}
    (o : Transformable β α) (f : α → α) : Transformable β α :=
  { o with state := o.hook f o.state }

/-- An argument to Transform.apply or Transform.apply_inplace: either a raw
coordinate array (no self-transform hook) or a Transformable object. -/
inductive ApplyArg (β : Type v) (α : Type u) where
  | raw (x : α)
  | obj (o : Transformable β α)

/-- Transform.apply (base.py line 93): try the Transformable hook on x via
lowbar-transform (non-destructively, on a copy); on AttributeError - that is,
when x is a raw array - return the primitive mapping of x. -/
def Transform.apply {β : Type v} {α : Type u} (t : Transform α) :
    ApplyArg β α → ApplyArg β α
  | .raw x => .raw (t._apply x)
  | .obj o => .obj (o._transform t._apply)

/-- Transform.apply_inplace (base.py line 56): try the in-place Transformable
hook on x; on AttributeError overwrite the raw array x with the primitive
mapping of x.  The returned value is the final content of the argument. -/
def Transform.apply_inplace {β : Type v} {α : Type u} (t : Transform α) :
    ApplyArg β α → ApplyArg β α
  | .raw x => .raw (t._apply x)
  | .obj o => .obj { o with state := o.hook t._apply o.state }

/-- TransformChain state: the ordered list of transforms
(base.py line 386). -/
structure TransformChain (α : Type u) where
  transforms : List (Transform α)

/-- TransformChain.lowbar-apply (base.py line 390): fold x through the
transforms left to right (reduce over the list with initial value x). -/
def TransformChain._apply {α : Type u} (c : TransformChain α) (x : α) : α :=
  c.transforms.foldl (fun xi tr => tr._apply xi) x

/-- A TransformChain is itself a Transform whose primitive mapping is the
fold of the list. -/
def TransformChain.toTransform {α : Type u} (c : TransformChain α) :
    Transform α :=
  ⟨c._apply⟩

/-- Transform.compose_before (base.py line 129): the chain-based fallback,
TransformChain of the list holding self then the operand. -/
def Transform.compose_before {α : Type u} (self t : Transform α) :
    TransformChain α :=
  ⟨[self, t]⟩

/-- Transform.compose_after (base.py line 148): the chain-based fallback,
TransformChain of the list holding the operand then self. -/
def Transform.compose_after {α : Type u} (self t : Transform α) :
    TransformChain α :=
  ⟨[t, self]⟩

/-- Claim C1: for every pair of transforms a and b and every coordinate array
p, the chain built by a.compose_before b applies p as b.apply (a.apply p) and
the chain built by a.compose_after b applies p as a.apply (b.apply p); both
chains store the operands a and b themselves unchanged, so neither call
mutates either operand (the embedding is pure state passing, and the
resulting chains are exactly the two-element lists of the original
operands). -/
theorem compose_before_after_chain_semantics {α : Type u}
    (a b : Transform α) (p : α) :
    (a.compose_before b).toTransform.apply (ApplyArg.raw p : ApplyArg Unit α)
        = b.apply (a.apply (ApplyArg.raw p))
    ∧ (a.compose_after b).toTransform.apply (ApplyArg.raw p : ApplyArg Unit α)
        = a.apply (b.apply (ApplyArg.raw p))
    ∧ (a.compose_before b).transforms = [a, b]
    ∧ (a.compose_after b).transforms = [b, a] := by
  refine ⟨rfl, rfl, rfl, rfl⟩

/-- Claim C10: the empty chain is the identity - applying TransformChain of
the empty list to any array x gives back x itself, the initial value of the
fold. -/
theorem transform_chain_empty_identity {α : Type u} (x : α) :
    (TransformChain.mk ([] : List (Transform α))).toTransform.apply
        (ApplyArg.raw x : ApplyArg Unit α) = ApplyArg.raw x := by
  rfl

/-- Claim C9: on an input lacking the Transformable self-transform hook (a
raw array x), apply returns the primitive mapping of x while x, passed by
value, is untouched, and apply_inplace ends with the content of x overwritten
by the primitive mapping of x.  Both are total functions of the raw input:
the absence of the hook takes the silent fallback branch and no error value
exists on this path. -/
theorem apply_raw_fallback {β : Type v} {α : Type u} (t : Transform α)
    (x : α) :
    t.apply (ApplyArg.raw x : ApplyArg β α) = ApplyArg.raw (t._apply x)
    ∧ t.apply_inplace (ApplyArg.raw x : ApplyArg β α)
        = ApplyArg.raw (t._apply x) := by
  exact ⟨rfl, rfl⟩

/-- A concrete subclass of ComposableTransform (base.py line 171).  Its
instances have state sigma; tau is the type of operand transforms.  The
record fields embed the abstract members the subclass supplies: the
primitive mapping, the composes_inplace_with membership test (the isinstance
check against the abstract property, base.py line 218), the two abstract
in-place combine methods (base.py lines 350-356), and the interpretations of
the receiver and of an operand as plain Transforms (in Python the objects
themselves are the transforms; the chain fallback stores them as such). -/
structure ComposableClass (σ : Type u) (τ : Type v) (α : Type u) where
  _apply : σ → α → α
  composes_inplace_with : τ → Bool
  _compose_before_inplace : σ → τ → σ
  _compose_after_inplace : σ → τ → σ
  selfAsTransform : σ → Transform α
  operandAsTransform : τ → Transform α

/-- ComposableTransform.compose_before_inplace (base.py line 275): if the
operand passes the composes_inplace_with test, mutate self by the abstract
in-place combine; otherwise raise ValueError, touching nothing.  The result
pairs the final receiver state with the optional raised error. -/
def ComposableClass.compose_before_inplace {σ : Type u} {τ : Type v}
    {α : Type u} (C : ComposableClass σ τ α) (self : σ) (t : τ) :
    σ × Option PyError :=
  if C.composes_inplace_with t then
    (C._compose_before_inplace self t, none)
  else
    (self, some (PyError.valueError composeInplaceMismatchMsg))

/-- ComposableTransform.compose_after_inplace (base.py line 306): same
dispatch as compose_before_inplace, with the after-combine. -/
def ComposableClass.compose_after_inplace {σ : Type u} {τ : Type v}
    {α : Type u} (C : ComposableClass σ τ α) (self : σ) (t : τ) :
    σ × Option PyError :=
  if C.composes_inplace_with t then
    (C._compose_after_inplace self t, none)
  else
    (self, some (PyError.valueError composeInplaceMismatchMsg))

/-- ComposableTransform.lowbar-compose-before (base.py line 338): deepcopy
self, run the in-place combine on the copy, return the copy.  The deep copy
is the value copy in the pure embedding. -/
def ComposableClass._compose_before {σ : Type u} {τ : Type v} {α : Type u}
    (C : ComposableClass σ τ α) (self : σ) (t : τ) : σ :=
  C._compose_before_inplace self t

/-- ComposableTransform.lowbar-compose-after (base.py line 344). -/
def ComposableClass._compose_after {σ : Type u} {τ : Type v} {α : Type u}
    (C : ComposableClass σ τ α) (self : σ) (t : τ) : σ :=
  C._compose_after_inplace self t

/-- The result of ComposableTransform.compose_before or compose_after:
either a native combined transform of the same concrete class, or the
TransformChain fallback. -/
inductive ComposeResult (σ : Type u) (α : Type u) where
  | native (s : σ)
  | chain (c : TransformChain α)

/-- ComposableTransform.compose_before (base.py line 226): native combine
when the operand passes composes_inplace_with, else the Transform
chain-based fallback on the two objects seen as plain transforms. -/
def ComposableClass.compose_before {σ : Type u} {τ : Type v} {α : Type u}
    (C : ComposableClass σ τ α) (self : σ) (t : τ) : ComposeResult σ α :=
  if C.composes_inplace_with t then
    ComposeResult.native (C._compose_before self t)
  else
    ComposeResult.chain
      (Transform.compose_before (C.selfAsTransform self) (C.operandAsTransform t))

/-- ComposableTransform.compose_after (base.py line 249). -/
def ComposableClass.compose_after {σ : Type u} {τ : Type v} {α : Type u}
    (C : ComposableClass σ τ α) (self : σ) (t : τ) : ComposeResult σ α :=
  if C.composes_inplace_with t then
    ComposeResult.native (C._compose_after self t)
  else
    ComposeResult.chain
      (Transform.compose_after (C.selfAsTransform self) (C.operandAsTransform t))

/-- Claim C2: when the operand fails the composes_inplace_with test, both
compose_before_inplace and compose_after_inplace raise the
capability-mismatch ValueError and return the receiver exactly as it was
(atomicity on error); when the operand passes the test, no error is
raised. -/
theorem compose_inplace_capability_mismatch {σ : Type u} {τ : Type v}
    {α : Type u} (C : ComposableClass σ τ α) (a : σ) (t : τ) :
    (C.composes_inplace_with t = false →
      C.compose_before_inplace a t
          = (a, some (PyError.valueError composeInplaceMismatchMsg))
      ∧ C.compose_after_inplace a t
          = (a, some (PyError.valueError composeInplaceMismatchMsg)))
    ∧ (C.composes_inplace_with t = true →
      (C.compose_before_inplace a t).2 = none
      ∧ (C.compose_after_inplace a t).2 = none) := by
  constructor
  · intro h
    constructor <;>
      simp [ComposableClass.compose_before_inplace,
        ComposableClass.compose_after_inplace, h]
  · intro h
    constructor <;>
      simp [ComposableClass.compose_before_inplace,
        ComposableClass.compose_after_inplace, h]

/-- Claim C5: when the operand passes the composes_inplace_with test,
compose_before and compose_after return the native combine obtained by
running the checked in-place combine on a value copy of the receiver (the
receiver a and the operand t, passed by value, are left unchanged);
otherwise they return exactly the chain-based fallback of the base
Transform class, a TransformChain. -/
theorem compose_dispatch_native_or_chain {σ : Type u} {τ : Type v}
    {α : Type u} (C : ComposableClass σ τ α) (a : σ) (t : τ) :
    (C.composes_inplace_with t = true →
      C.compose_before a t
          = ComposeResult.native (C.compose_before_inplace a t).1
      ∧ C.compose_after a t
          = ComposeResult.native (C.compose_after_inplace a t).1)
    ∧ (C.composes_inplace_with t = false →
      C.compose_before a t
          = ComposeResult.chain
              (Transform.compose_before (C.selfAsTransform a)
                (C.operandAsTransform t))
      ∧ C.compose_after a t
          = ComposeResult.chain
              (Transform.compose_after (C.selfAsTransform a)
                (C.operandAsTransform t))) := by
  constructor
  · intro h
    constructor <;>
      simp [ComposableClass.compose_before, ComposableClass.compose_after,
        ComposableClass.compose_before_inplace,
        ComposableClass.compose_after_inplace,
        ComposableClass._compose_before, ComposableClass._compose_after, h]
  · intro h
    constructor <;>
      simp [ComposableClass.compose_before, ComposableClass.compose_after, h]

/-- The ComposableTransform instantiation that TransformChain provides
(base.py lines 376-384): composes_inplace_with is Transform, so every
transform passes the isinstance test; the before-combine appends to the
list, the after-combine inserts at position zero. -/
def TransformChain.composable (α : Type u) :
    ComposableClass (TransformChain α) (Transform α) α where
  _apply := TransformChain._apply
  composes_inplace_with := fun _ => true
  _compose_before_inplace := fun c t => ⟨c.transforms ++ [t]⟩
  _compose_after_inplace := fun c t => ⟨t :: c.transforms⟩
  selfAsTransform := TransformChain.toTransform
  operandAsTransform := id

/-- Claim C6: a two-element chain applies x as the second transform after
the first; the checked compose_before_inplace on a chain appends the operand
(giving the chain a, b, c) and compose_after_inplace prepends it (giving
d, a, b), neither raising; and the chain composes inplace with any
Transform. -/
theorem transform_chain_compose_inplace {α : Type u}
    (a b c d : Transform α) (x : α) :
    TransformChain._apply ⟨[a, b]⟩ x = b._apply (a._apply x)
    ∧ (TransformChain.composable α).compose_before_inplace ⟨[a, b]⟩ c
        = (⟨[a, b, c]⟩, none)
    ∧ (TransformChain.composable α).compose_after_inplace ⟨[a, b]⟩ d
        = (⟨[d, a, b]⟩, none)
    ∧ ∀ t : Transform α,
        (TransformChain.composable α).composes_inplace_with t = true := by
  refine ⟨rfl, rfl, rfl, fun t => rfl⟩

/-- A small concrete ComposableTransform instance used to witness the
dispatch theorems: states are natural numbers (acting by addition), operands
are Booleans, and the composes_inplace_with test accepts exactly the
operand true. -/
def boolGateClass : ComposableClass Nat Bool Nat where
  _apply := fun s x => x + s
  composes_inplace_with := fun t => t
  _compose_before_inplace := fun s _ => s + 1
  _compose_after_inplace := fun s _ => s + 2
  selfAsTransform := fun s => ⟨fun x => x + s⟩
  operandAsTransform := fun _ => ⟨fun x => x⟩

/-- Witness for claim C2 at a concrete instance: the operand false fails the
test, so both in-place compositions return the untouched receiver 5 with the
ValueError, and the operand true passes, raising nothing. -/
theorem compose_inplace_capability_mismatch_witness :
    boolGateClass.compose_before_inplace 5 false
        = (5, some (PyError.valueError composeInplaceMismatchMsg))
    ∧ boolGateClass.compose_after_inplace 5 false
        = (5, some (PyError.valueError composeInplaceMismatchMsg))
    ∧ (boolGateClass.compose_before_inplace 5 true).2 = none :=
  ⟨((compose_inplace_capability_mismatch boolGateClass 5 false).1 rfl).1,
   ((compose_inplace_capability_mismatch boolGateClass 5 false).1 rfl).2,
   ((compose_inplace_capability_mismatch boolGateClass 5 true).2 rfl).1⟩

/-- Witness for claim C5 at a concrete instance: the accepted operand true
yields the native combine, the rejected operand false yields the chain
fallback. -/
theorem compose_dispatch_native_or_chain_witness :
    boolGateClass.compose_before 5 true
        = ComposeResult.native (boolGateClass.compose_before_inplace 5 true).1
    ∧ boolGateClass.compose_after 5 false
        = ComposeResult.chain
            (Transform.compose_after (boolGateClass.selfAsTransform 5)
              (boolGateClass.operandAsTransform false)) :=
  ⟨((compose_dispatch_native_or_chain boolGateClass 5 true).1 rfl).1,
   ((compose_dispatch_native_or_chain boolGateClass 5 false).2 rfl).2⟩

/-- A concrete subclass of VComposableTransform (base.py line 406): a
ComposableTransform that is also Vectorizable.  Operands of the in-place
vector paths are instances of the same concrete class, so they share the
state type sigma; nu is the parameter-vector type.  The record embeds the
primitive mapping, the composes_inplace_with test on same-class instances,
the abstract before-combine, and the Vectorizable contract members
as_vector, from_vector and update_from_vector. -/
structure VComposableClass (σ : Type u) (ν : Type v) (α : Type u) where
  _apply : σ → α → α
  composes_inplace_with : σ → Bool
  _compose_before_inplace : σ → σ → σ
  as_vector : σ → ν
  from_vector : σ → ν → σ
  update_from_vector : σ → ν → σ

/-- ComposableTransform.compose_before_inplace as inherited by
VComposableTransform (base.py line 275), specialised to same-class
operands. -/
def VComposableClass.compose_before_inplace {σ : Type u} {ν : Type v}
    {α : Type u} (C : VComposableClass σ ν α) (self t : σ) :
    σ × Option PyError :=
  if C.composes_inplace_with t then
    (C._compose_before_inplace self t, none)
  else
    (self, some (PyError.valueError composeInplaceMismatchMsg))

/-- VComposableTransform.compose_before_from_vector_inplace (base.py line
416): build an instance from the vector with from_vector, then do the
ordinary checked compose_before_inplace with it. -/
def VComposableClass.compose_before_from_vector_inplace {σ : Type u}
    {ν : Type v} {α : Type u} (C : VComposableClass σ ν α) (self : σ)
    (vector : ν) : σ × Option PyError :=
  C.compose_before_inplace self (C.from_vector self vector)

/-- VComposableTransform.lowbar-compose-after-inplace, the default strategy
(base.py line 464): snapshot the receiver parameter vector, overwrite the
receiver parameters with the operand parameters via update_from_vector, then
compose_before_from_vector_inplace with the snapshot. -/
def VComposableClass._compose_after_inplace {σ : Type u} {ν : Type v}
    {α : Type u} (C : VComposableClass σ ν α) (self t : σ) :
    σ × Option PyError :=
  let self_vector := C.as_vector self
  let self1 := C.update_from_vector self (C.as_vector t)
  C.compose_before_from_vector_inplace self1 self_vector

/-- Claim C3: under the Vectorizable contract - update_from_vector behaves
as from_vector, from_vector of an instance's encoded vector behaves as that
instance, the before-combine composes the mappings, and same-class
instances built by from_vector pass the composes_inplace_with test - the
default vector-swap after-combine raises nothing and yields a receiver
a_new with a_new.apply p = a_orig.apply (t.apply p) for every point array
p; the operand t, passed by value, is left unchanged. -/
theorem vcomposable_compose_after_inplace_semantics {σ : Type u}
    {ν : Type v} {α : Type u} (C : VComposableClass σ ν α) (a t : σ)
    (hGate : C.composes_inplace_with
        (C.from_vector (C.update_from_vector a (C.as_vector t))
          (C.as_vector a)) = true)
    (hUpd : ∀ s v x, C._apply (C.update_from_vector s v) x
        = C._apply (C.from_vector s v) x)
    (hFrom : ∀ s s' x, C._apply (C.from_vector s (C.as_vector s')) x
        = C._apply s' x)
    (hCB : ∀ s u x, C._apply (C._compose_before_inplace s u) x
        = C._apply u (C._apply s x)) :
    (C._compose_after_inplace a t).2 = none
    ∧ ∀ p, C._apply (C._compose_after_inplace a t).1 p
        = C._apply a (C._apply t p) := by
  unfold VComposableClass._compose_after_inplace
    VComposableClass.compose_before_from_vector_inplace
    VComposableClass.compose_before_inplace
  simp only [hGate, if_true]
  refine ⟨trivial, fun p => ?_⟩
  have h1 : C._apply (C.update_from_vector a (C.as_vector t)) p
      = C._apply t p := by
    rw [hUpd, hFrom]
  calc C._apply
        (C._compose_before_inplace
          (C.update_from_vector a (C.as_vector t))
          (C.from_vector (C.update_from_vector a (C.as_vector t))
            (C.as_vector a))) p
      = C._apply
          (C.from_vector (C.update_from_vector a (C.as_vector t))
            (C.as_vector a))
          (C._apply (C.update_from_vector a (C.as_vector t)) p) := hCB _ _ _
    _ = C._apply a (C._apply (C.update_from_vector a (C.as_vector t)) p) :=
        hFrom _ _ _
    _ = C._apply a (C._apply t p) := by rw [h1]

/-- A concrete VComposableTransform instance used to witness claim C3:
integer translations, with the translation amount as both state and
parameter vector. -/
def intTranslationClass : VComposableClass Int Int Int where
  _apply := fun s x => x + s
  composes_inplace_with := fun _ => true
  _compose_before_inplace := fun s u => s + u
  as_vector := fun s => s
  from_vector := fun _ v => v
  update_from_vector := fun _ v => v

/-- Witness for claim C3 at the integer-translation instance with receiver
2, operand 3 and point 5. -/
theorem vcomposable_compose_after_inplace_semantics_witness :
    (intTranslationClass._compose_after_inplace 2 3).2 = none
    ∧ intTranslationClass._apply
        (intTranslationClass._compose_after_inplace 2 3).1 5
      = intTranslationClass._apply 2 (intTranslationClass._apply 3 5) :=
  ⟨(vcomposable_compose_after_inplace_semantics intTranslationClass 2 3 rfl
      (fun _ _ _ => rfl) (fun _ _ _ => rfl)
      (fun s u x => (add_assoc x s u).symm)).1,
   (vcomposable_compose_after_inplace_semantics intTranslationClass 2 3 rfl
      (fun _ _ _ => rfl) (fun _ _ _ => rfl)
      (fun s u x => (add_assoc x s u).symm)).2 5⟩

/-- Message of the ValueError raised by lowbar-verify-source-and-target on a
dimensionality mismatch (base.py line 660). -/
def dimMismatchMsg : String :=
  "Source and target must have the same dimensionality"

/-- Message of the ValueError raised by lowbar-verify-source-and-target on a
point-count mismatch (base.py line 663). -/
def pointsMismatchMsg : String :=
  "Source and target must have the same number of points"

/-- Message of the ValueError raised by the target setter on a
dimensionality mismatch with the current target (base.py line 591). -/
def targetDimMismatchMsg : String :=
  "new target has to have the same dimensionality as the old"

/-- Message of the ValueError raised by the target setter on a point-count
mismatch with the current target (base.py line 596). -/
def targetPointsMismatchMsg : String :=
  "new target has to have the same number of points as the old"

/-- Message of the NotImplementedError raised by the target setter on an
unbound transform (base.py line 587). -/
def notAlignmentSetterMsg : String :=
  "Cannot update target for Transforms not built with the align constructor"

/-- Message of the ValueError raised by aligned_source on an unbound
transform (base.py line 606). -/
def notAlignmentTransformMsg : String :=
  "This is not an alignment transform"

/-- Message of the AttributeError Python raises when an attribute of None is
read. -/
def noneAttributeMsg : String :=
  "NoneType object has no attribute"

/-- The point-set collaborator contract consumed by Alignable and
PureAlignment: a PointCloud exposes n_dims, n_points and a points array
(modelled as a list of rows of rational coordinates). -/
structure PointCloud where
  n_dims : Nat
  n_points : Nat
  points : List (List ℚ)
  deriving Repr, DecidableEq

/-- Alignable.lowbar-verify-source-and-target (base.py line 657): ValueError
when the dimensionalities differ, ValueError when the point counts differ,
True otherwise. -/
def _verify_source_and_target (source target : PointCloud) :
    Except PyError Bool :=
  if source.n_dims ≠ target.n_dims then
    Except.error (PyError.valueError dimMismatchMsg)
  else if source.n_points ≠ target.n_points then
    Except.error (PyError.valueError pointsMismatchMsg)
  else
    Except.ok true

/-- A concrete subclass of the Alignable mixin (base.py line 490).  The
record fields embed the state accessors for the lowbar-source and
lowbar-target slots, the abstract class method lowbar-align, the abstract
lowbar-target-setter, and the apply method the Transform side of the
concrete class supplies on point clouds. -/
structure AlignableClass (σ : Type u) where
  source : σ → Option PointCloud
  target : σ → Option PointCloud
  _align : PointCloud → PointCloud → σ
  _target_setter : σ → PointCloud → σ
  apply : σ → PointCloud → PointCloud

/-- Alignable.is_alignment_transform (base.py line 569): true iff both the
source and the target are non-null. -/
def AlignableClass.is_alignment_transform {σ : Type u}
    (C : AlignableClass σ) (self : σ) : Bool :=
  (C.source self).isSome && (C.target self).isSome

/-- Alignable.align (base.py line 545): verify the source and target, then
delegate to the subclass lowbar-align. -/
def AlignableClass.align {σ : Type u} (C : AlignableClass σ)
    (source target : PointCloud) : Except PyError σ :=
  match _verify_source_and_target source target with
  | Except.error e => Except.error e
  | Except.ok _ => Except.ok (C._align source target)

/-- The public target setter (base.py line 581): NotImplementedError when
the transform is unbound; ValueError when the new value and the current
target differ in dimensionality or in point count; otherwise delegate to the
subclass lowbar-target-setter. -/
def AlignableClass.set_target {σ : Type u} (C : AlignableClass σ)
    (self : σ) (value : PointCloud) : Except PyError σ :=
  if C.is_alignment_transform self then
    match C.target self with
    | some tgt =>
        if value.n_dims ≠ tgt.n_dims then
          Except.error (PyError.valueError targetDimMismatchMsg)
        else if value.n_points ≠ tgt.n_points then
          Except.error (PyError.valueError targetPointsMismatchMsg)
        else
          Except.ok (C._target_setter self value)
    | none => Except.error (PyError.attributeError noneAttributeMsg)
  else
    Except.error (PyError.notImplementedError notAlignmentSetterMsg)

/-- Alignable.aligned_source (base.py line 603): ValueError when unbound,
else apply the transform to the source. -/
def AlignableClass.aligned_source {σ : Type u} (C : AlignableClass σ)
    (self : σ) : Except PyError PointCloud :=
  if C.is_alignment_transform self then
    match C.source self with
    | some src => Except.ok (C.apply self src)
    | none => Except.error (PyError.attributeError noneAttributeMsg)
  else
    Except.error (PyError.valueError notAlignmentTransformMsg)

/-- Entrywise difference of two point matrices (numpy array subtraction of
target.points and aligned-source points of equal shape). -/
def matSub (A B : List (List ℚ)) : List (List ℚ) :=
  List.zipWith (fun r s => List.zipWith (fun x y => x - y) r s) A B

/-- The sum of the squares of all entries of a point matrix. -/
def frobSq (A : List (List ℚ)) : ℚ :=
  (A.map (fun r => (r.map (fun x => x * x)).sum)).sum

/-- The Frobenius norm np.linalg.norm computes: the square root of the sum
of squared entries (idealised over the reals). -/
noncomputable def frobNorm (A : List (List ℚ)) : ℝ :=
  Real.sqrt ((frobSq A : ℚ) : ℝ)

/-- Alignable.alignment_error (base.py line 610): the Frobenius norm of the
difference between the target points and the aligned-source points.  Python
reads self.target.points first (AttributeError on None when unbound), then
evaluates aligned_source, whose ValueError propagates. -/
noncomputable def AlignableClass.alignment_error {σ : Type u}
    (C : AlignableClass σ) (self : σ) : Except PyError Real :=
  match C.target self with
  | none => Except.error (PyError.attributeError noneAttributeMsg)
  | some tgt =>
      match C.aligned_source self with
      | Except.error e => Except.error e
      | Except.ok als => Except.ok (frobNorm (matSub tgt.points als.points))

/-- Claim C4: align raises the dimensionality ValueError when the
dimensionalities differ and the point-count ValueError when the point
counts differ, and delegates to lowbar-align when both match; on a bound
transform, the public target setter raises the corresponding ValueErrors
when the new value disagrees with the current target, and delegates to
lowbar-target-setter when dimensionality and point count both match.  In
every case the outcome is exactly one of these, never a coercion. -/
theorem align_and_target_setter_validation {σ : Type u}
    (C : AlignableClass σ) (source target : PointCloud) (self : σ)
    (value tgt : PointCloud) :
    (source.n_dims ≠ target.n_dims →
      C.align source target = Except.error (PyError.valueError dimMismatchMsg))
    ∧ (source.n_dims = target.n_dims → source.n_points ≠ target.n_points →
      C.align source target
          = Except.error (PyError.valueError pointsMismatchMsg))
    ∧ (source.n_dims = target.n_dims → source.n_points = target.n_points →
      C.align source target = Except.ok (C._align source target))
    ∧ (C.target self = some tgt → C.is_alignment_transform self = true →
      (value.n_dims ≠ tgt.n_dims →
        C.set_target self value
            = Except.error (PyError.valueError targetDimMismatchMsg))
      ∧ (value.n_dims = tgt.n_dims → value.n_points ≠ tgt.n_points →
        C.set_target self value
            = Except.error (PyError.valueError targetPointsMismatchMsg))
      ∧ (value.n_dims = tgt.n_dims → value.n_points = tgt.n_points →
        C.set_target self value = Except.ok (C._target_setter self value))) := by
  refine ⟨fun h => ?_, fun h1 h2 => ?_, fun h1 h2 => ?_, fun ht hb => ?_⟩
  · simp [AlignableClass.align, _verify_source_and_target, h]
  · simp [AlignableClass.align, _verify_source_and_target, h1, h2]
  · simp [AlignableClass.align, _verify_source_and_target, h1, h2]
  · refine ⟨fun h => ?_, fun h1 h2 => ?_, fun h1 h2 => ?_⟩ <;>
      simp_all [AlignableClass.set_target]

/-- Claim C8: on a bound alignment transform, aligned_source is exactly
apply of the source and alignment_error is exactly the Frobenius norm of
the difference between the target points and the aligned-source points; on
an unbound transform (source or target null) both raise. -/
theorem aligned_source_and_alignment_error {σ : Type u}
    (C : AlignableClass σ) (self : σ) :
    (∀ src tgt, C.source self = some src → C.target self = some tgt →
      C.aligned_source self = Except.ok (C.apply self src)
      ∧ C.alignment_error self
          = Except.ok (frobNorm (matSub tgt.points (C.apply self src).points)))
    ∧ (C.source self = none ∨ C.target self = none →
      (∃ e, C.aligned_source self = Except.error e)
      ∧ (∃ e, C.alignment_error self = Except.error e)) := by
  constructor
  · intro src tgt hs ht
    have hb : C.is_alignment_transform self = true := by
      simp [AlignableClass.is_alignment_transform, hs, ht]
    have h1 : C.aligned_source self = Except.ok (C.apply self src) := by
      simp [AlignableClass.aligned_source, hb, hs]
    refine ⟨h1, ?_⟩
    simp [AlignableClass.alignment_error, ht, h1]
  · intro h
    have hb : C.is_alignment_transform self = false := by
      rcases h with h | h <;>
        simp [AlignableClass.is_alignment_transform, h]
    have h1 : C.aligned_source self
        = Except.error (PyError.valueError notAlignmentTransformMsg) := by
      simp [AlignableClass.aligned_source, hb]
    refine ⟨⟨_, h1⟩, ?_⟩
    cases htgt : C.target self with
    | none =>
        exact ⟨PyError.attributeError noneAttributeMsg,
          by simp [AlignableClass.alignment_error, htgt]⟩
    | some tgt =>
        exact ⟨PyError.valueError notAlignmentTransformMsg,
          by simp [AlignableClass.alignment_error, htgt, h1]⟩

/-- PureAlignment state (base.py line 669): the source and target slots are
its only state. -/
structure PureAlignment where
  _source : Option PointCloud
  _target : Option PointCloud
  deriving Repr, DecidableEq

/-- PureAlignment.is_alignment_transform, inherited from Alignable
(base.py line 569). -/
def PureAlignment.is_alignment_transform (self : PureAlignment) : Bool :=
  self._source.isSome && self._target.isSome

/-- The PureAlignment constructor (base.py line 686): Alignable init sets
both slots to None, then the verification runs (raising on mismatch) and,
since it only ever returns True, the guarded assignment stores source and
target. -/
def PureAlignment.init (source target : PointCloud) :
    Except PyError PureAlignment :=
  let self : PureAlignment := ⟨none, none⟩
  match _verify_source_and_target source target with
  | Except.error e => Except.error e
  | Except.ok ok =>
      if ok then
        Except.ok { self with _source := some source, _target := some target }
      else
        Except.ok self

/-- PureAlignment.align (base.py line 718): alignment is construction, the
class method is exactly the constructor call. -/
def PureAlignment.align (source target : PointCloud) :
    Except PyError PureAlignment :=
  PureAlignment.init source target

/-- Claim C7: every successfully constructed PureAlignment stores the given
source and target and is an alignment transform (bound at birth, no unbound
state reachable); construction raises a ValueError exactly on a
dimensionality or point-count mismatch; and PureAlignment.align is exactly
the constructor. -/
theorem pure_alignment_bound_at_birth (s t : PointCloud) :
    (∀ pa, PureAlignment.init s t = Except.ok pa →
      pa._source = some s ∧ pa._target = some t
      ∧ pa.is_alignment_transform = true)
    ∧ (s.n_dims ≠ t.n_dims ∨ s.n_points ≠ t.n_points →
      ∃ m, PureAlignment.init s t = Except.error (PyError.valueError m))
    ∧ (s.n_dims = t.n_dims → s.n_points = t.n_points →
      PureAlignment.init s t = Except.ok ⟨some s, some t⟩)
    ∧ PureAlignment.align s t = PureAlignment.init s t := by
  refine ⟨?_, ?_, ?_, rfl⟩
  · intro pa hpa
    unfold PureAlignment.init _verify_source_and_target at hpa
    by_cases h1 : s.n_dims = t.n_dims
    · by_cases h2 : s.n_points = t.n_points
      · simp [h1, h2] at hpa
        subst hpa
        simp [PureAlignment.is_alignment_transform]
      · simp [h1, h2] at hpa
    · simp [h1] at hpa
  · intro h
    unfold PureAlignment.init _verify_source_and_target
    rcases h with h | h
    · exact ⟨dimMismatchMsg, by simp [h]⟩
    · by_cases h1 : s.n_dims = t.n_dims
      · exact ⟨pointsMismatchMsg, by simp [h1, h]⟩
      · exact ⟨dimMismatchMsg, by simp [h1]⟩
  · intro h1 h2
    unfold PureAlignment.init _verify_source_and_target
    simp [h1, h2]

/-- A concrete 2D point cloud with three points. -/
def pcA : PointCloud := ⟨2, 3, [[1, 2], [3, 4], [5, 6]]⟩

/-- A second concrete 2D point cloud with three points. -/
def pcB : PointCloud := ⟨2, 3, [[0, 1], [2, 2], [4, 5]]⟩

/-- A concrete 3D point cloud with three points (dimensionality
mismatch partner). -/
def pc3d : PointCloud := ⟨3, 3, [[0, 0, 0], [1, 1, 1], [2, 2, 2]]⟩

/-- A concrete 2D point cloud with two points (point-count mismatch
partner). -/
def pcFew : PointCloud := ⟨2, 2, [[0, 0], [1, 1]]⟩

/-- A concrete Alignable subclass used by the witnesses: its state is the
pair of the source and target slots, lowbar-align stores both, the target
setter replaces the target slot, and apply is the identity mapping on point
clouds. -/
def pairAlignClass : AlignableClass (Option PointCloud × Option PointCloud) where
  source := Prod.fst
  target := Prod.snd
  _align := fun s t => (some s, some t)
  _target_setter := fun self v => (self.1, some v)
  apply := fun _ p => p

/-- Witness for claim C4 at concrete point clouds: a 2D versus 3D pair and a
3-point versus 2-point pair are rejected with the respective ValueErrors, a
matching pair delegates to lowbar-align, and on a bound receiver the setter
rejects a point-count mismatch and delegates on a match. -/
theorem align_and_target_setter_validation_witness :
    pairAlignClass.align pcA pc3d
        = Except.error (PyError.valueError dimMismatchMsg)
    ∧ pairAlignClass.align pcA pcFew
        = Except.error (PyError.valueError pointsMismatchMsg)
    ∧ pairAlignClass.align pcA pcB
        = Except.ok (pairAlignClass._align pcA pcB)
    ∧ pairAlignClass.set_target (some pcA, some pcB) pcFew
        = Except.error (PyError.valueError targetPointsMismatchMsg)
    ∧ pairAlignClass.set_target (some pcA, some pcB) pcA
        = Except.ok (pairAlignClass._target_setter (some pcA, some pcB) pcA) :=
  ⟨(align_and_target_setter_validation pairAlignClass pcA pc3d
      (some pcA, some pcB) pcA pcB).1 (by decide),
   (align_and_target_setter_validation pairAlignClass pcA pcFew
      (some pcA, some pcB) pcA pcB).2.1 rfl (by decide),
   (align_and_target_setter_validation pairAlignClass pcA pcB
      (some pcA, some pcB) pcA pcB).2.2.1 rfl rfl,
   ((align_and_target_setter_validation pairAlignClass pcA pcB
      (some pcA, some pcB) pcFew pcB).2.2.2 rfl rfl).2.1 rfl (by decide),
   ((align_and_target_setter_validation pairAlignClass pcA pcB
      (some pcA, some pcB) pcA pcB).2.2.2 rfl rfl).2.2 rfl rfl⟩

/-- Witness for claim C7 at concrete point clouds: construction from a
matching pair succeeds and the constructed PureAlignment is bound, a 2D
versus 3D pair is rejected with a ValueError, and align coincides with the
constructor. -/
theorem pure_alignment_bound_at_birth_witness :
    PureAlignment.init pcA pcB = Except.ok ⟨some pcA, some pcB⟩
    ∧ (PureAlignment.mk (some pcA) (some pcB)).is_alignment_transform = true
    ∧ (∃ m, PureAlignment.init pcA pc3d
        = Except.error (PyError.valueError m))
    ∧ PureAlignment.align pcA pcB = PureAlignment.init pcA pcB :=
  ⟨(pure_alignment_bound_at_birth pcA pcB).2.2.1 rfl rfl,
   ((pure_alignment_bound_at_birth pcA pcB).1 ⟨some pcA, some pcB⟩
      ((pure_alignment_bound_at_birth pcA pcB).2.2.1 rfl rfl)).2.2,
   (pure_alignment_bound_at_birth pcA pc3d).2.1 (Or.inl (by decide)),
   (pure_alignment_bound_at_birth pcA pcB).2.2.2⟩

/-- Witness for claim C8 at a concrete bound instance (and one unbound
instance): aligned_source is apply of the source, alignment_error is the
Frobenius norm of the point difference, and the unbound instance raises. -/
theorem aligned_source_and_alignment_error_witness :
    pairAlignClass.aligned_source (some pcA, some pcB)
        = Except.ok (pairAlignClass.apply (some pcA, some pcB) pcA)
    ∧ pairAlignClass.alignment_error (some pcA, some pcB)
        = Except.ok (frobNorm (matSub pcB.points
            (pairAlignClass.apply (some pcA, some pcB) pcA).points))
    ∧ (∃ e, pairAlignClass.aligned_source (none, some pcB)
        = Except.error e) :=
  ⟨((aligned_source_and_alignment_error pairAlignClass
      (some pcA, some pcB)).1 pcA pcB rfl rfl).1,
   ((aligned_source_and_alignment_error pairAlignClass
      (some pcA, some pcB)).1 pcA pcB rfl rfl).2,
   ((aligned_source_and_alignment_error pairAlignClass
      (none, some pcB)).2 (Or.inl rfl)).1⟩
